import Mathlib

/-!
# Verification of the simple-devenv TUI core (src/tui.py)

Shallow embedding of the state-bearing core of the Textual TUI:
the hidden-entry path filter, the directory-picker modal (selection state,
idempotent folder creation), the repository-picker modal (candidate cache,
incremental filtering, tracked selection), the main form's continuations
for the two modal results, and the suspend/run/resume execution handoff.

Filesystem paths are modelled as lists of components (`FsPath`); the
filesystem itself is a list of existing directories plus a list of paths
whose creation is denied (modelling `OSError` from permissions or invalid
names).  Folder names are modelled as single components (the claims only
exercise slash-free names).  External effects (the `gh` listing calls, the
provisioning subprocess) enter as parameters carrying their observable
results, exactly where the Python code consumes them.
-/

namespace SimpleDevEnv

/-- A filesystem path, as its list of components (`["root","a"]` is `/root/a`). -/
abbrev FsPath := List String

/-- Python `str.lower()`, character by character (the candidates here are
ASCII repository names). -/
def strLower (s : String) : String :=
  ⟨s.data.map Char.toLower⟩

/-- Python `str.strip()`: drop whitespace from both ends. -/
def strTrim (s : String) : String :=
  ⟨((s.data.dropWhile Char.isWhitespace).reverse.dropWhile Char.isWhitespace).reverse⟩

/-- Python `str.startswith(".")`: the first character is a dot. -/
def startsWithDot (s : String) : Bool :=
  s.data.head? = some '.'

/-- Rendering of a path, as Python `str(path)` renders an absolute path. -/
def pathStr (p : FsPath) : String :=
  "/" ++ String.intercalate "/" p

/-- `p.name` of pathlib: the final component (empty for the root). -/
def pathName (p : FsPath) : String :=
  p.getLast?.getD ""

/-- A directory entry is hidden when its name starts with the `"."` marker. -/
def isHidden (p : FsPath) : Bool :=
  startsWithDot (pathName p)

/-- `FilteredDirectoryTree.filter_paths`:
`[p for p in paths if not p.name.startswith(".")]`. -/
def filter_paths (paths : List FsPath) : List FsPath :=
  paths.filter (fun p => !isHidden p)

/-! ## Filesystem model for folder creation -/

/-- Abstract filesystem: the directories that exist, and the paths whose
creation the OS refuses (permissions, invalid name, ...). -/
structure Fs where
  dirs : List FsPath
  denied : List FsPath
  deriving DecidableEq

/-- One `os.mkdir`-level step with `exist_ok` semantics: an existing
directory is left alone, a denied path raises `OSError` (the error carries
the message and the filesystem as the failure leaves it), otherwise the
directory is created. -/
def mkdirOne (fs : Fs) (p : FsPath) : Except (String × Fs) Fs :=
  if p ∈ fs.dirs then .ok fs
  else if p ∈ fs.denied then .error ("Permission denied: " ++ pathStr p, fs)
  else .ok { fs with dirs := p :: fs.dirs }

/-- Create every path of a list in order, stopping at the first failure;
directories created before the failure persist, as with real `mkdir -p`. -/
def mkdirList (fs : Fs) : List FsPath → Except (String × Fs) Fs
  | [] => .ok fs
  | q :: qs =>
    match mkdirOne fs q with
    | .ok fs' => mkdirList fs' qs
    | .error e => .error e

/-- `new_path.mkdir(parents=True, exist_ok=True)`: create all missing
ancestors of `p` and then `p` itself; existing directories are not an
error. -/
def mkdirParents (fs : Fs) (p : FsPath) : Except (String × Fs) Fs :=
  mkdirList fs (p.inits.drop 1)

/-! ## DirectoryPickerScreen -/

/-- State of the directory-picker modal.  `dismissed = none` while the
screen is open; `dismissed = some r` once `self.dismiss(r)` ran, where `r`
is the modal's result (`none` = cancelled). -/
structure DirPickerState where
  start_path : FsPath
  selected_path : Option FsPath
  display : String
  input_val : String
  dismissed : Option (Option FsPath)
  deriving DecidableEq

/-- `DirectoryPickerScreen.__init__` plus the initial compose: no selection,
the readout shows the start path, the folder-name input is empty. -/
def initDirPicker (start : FsPath) : DirPickerState :=
  { start_path := start
    selected_path := none
    display := "Current: " ++ pathStr start
    input_val := ""
    dismissed := none }

namespace DirPicker

/-- `on_directory_selected`: a tree node was activated. -/
def on_directory_selected (st : DirPickerState) (p : FsPath) : DirPickerState :=
  { st with selected_path := some p, display := "Selected: " ++ pathStr p }

/-- Typing into the `#new-folder-input` field. -/
def setInput (st : DirPickerState) (s : String) : DirPickerState :=
  { st with input_val := s }

/-- `on_create_folder`: strip the input; if empty, do nothing; otherwise
create `parent / folder_name` (parent = current selection, else start
path).  On success the new folder becomes the selection and the input is
cleared; an `OSError` is caught and shown inline, everything else
untouched. -/
def on_create_folder (st : DirPickerState) (fs : Fs) : DirPickerState × Fs :=
  let folder_name := strTrim st.input_val
  if folder_name = "" then (st, fs)
  else
    let parent := st.selected_path.getD st.start_path
    let new_path := parent ++ [folder_name]
    match mkdirParents fs new_path with
    | .ok fs' =>
      ({ st with
          selected_path := some new_path
          display := "Created & Selected: " ++ pathStr new_path
          input_val := "" }, fs')
    | .error e =>
      ({ st with display := "Error: " ++ e.1 }, e.2)

/-- `on_select`: dismiss with `selected_path or start_path`. -/
def on_select (st : DirPickerState) : DirPickerState :=
  { st with dismissed := some (some (st.selected_path.getD st.start_path)) }

/-- `action_cancel` (Cancel button and the `escape` binding): dismiss with
no result. -/
def action_cancel (st : DirPickerState) : DirPickerState :=
  { st with dismissed := some none }

end DirPicker

/-- The events the directory-picker screen reacts to. -/
inductive DirEvent where
  | dirSelected (p : FsPath)
  | setInput (s : String)
  | createFolder
  | pressSelect
  | pressCancel
  deriving DecidableEq

/-- One event step of the directory-picker modal. -/
def dirStep (s : DirPickerState × Fs) (e : DirEvent) : DirPickerState × Fs :=
  match e with
  | .dirSelected p => (DirPicker.on_directory_selected s.1 p, s.2)
  | .setInput v => (DirPicker.setInput s.1 v, s.2)
  | .createFolder => DirPicker.on_create_folder s.1 s.2
  | .pressSelect => (DirPicker.on_select s.1, s.2)
  | .pressCancel => (DirPicker.action_cancel s.1, s.2)

/-- Run a sequence of directory-picker events. -/
def dirRun (s : DirPickerState × Fs) (es : List DirEvent) : DirPickerState × Fs :=
  es.foldl dirStep s

/-! ## Substring matching (Python `needle in haystack`) -/

/-- `needle` occurs at the very start of `hay`. -/
def leadMatch : List Char → List Char → Bool
  | [], _ => true
  | _ :: _, [] => false
  | c :: cs, d :: ds => c = d && leadMatch cs ds

/-- `needle` occurs contiguously somewhere in `hay` (Python `in` on
strings; the empty needle always matches). -/
def occursIn (needle : List Char) : List Char → Bool
  | [] => leadMatch needle []
  | c :: t => leadMatch needle (c :: t) || occursIn needle t

/-- Python `needle in hay` for strings. -/
def strIn (needle hay : String) : Bool :=
  occursIn needle.data hay.data

/-! ## Candidate cache (`SimpleDevEnvApp.on_select_repo`) -/

/-- The sort key order of `sorted(set(all_repos), key=lambda x: x[0].lower())`:
compare candidates by the lowercased display name, lexicographically by
code point (Python string comparison), as a list of characters. -/
def repoLe (a b : String × String) : Prop :=
  (strLower a.1).data ≤ (strLower b.1).data

instance : DecidableRel repoLe := fun a b =>
  inferInstanceAs (Decidable ((strLower a.1).data ≤ (strLower b.1).data))

instance : IsTotal (String × String) repoLe :=
  ⟨fun a b => le_total (strLower a.1).data (strLower b.1).data⟩

instance : IsTrans (String × String) repoLe :=
  ⟨fun _ _ _ hab hbc => le_trans hab hbc⟩

/-- `sorted(set(all_repos), key=lambda x: x[0].lower())`: drop exact
duplicate `(name, url)` pairs, then sort by lowercased name.  (Python's
`set` has no fixed iteration order; this fixes one representative order,
which matters only to the relative order of candidates whose lowercased
names tie.) -/
def buildRepoCache (all_repos : List (String × String)) : List (String × String) :=
  List.insertionSort repoLe all_repos.dedup

/-- The repo-loading part of `on_select_repo`, given the observable result
of each `gh repo list` call (`none` = non-zero exit, `some rs` = parsed
rows): merge the successful sources; if nothing was collected report the
auth failure and leave the cache empty, otherwise dedup and sort. -/
def loadRepos (personal org : Option (List (String × String))) :
    Except String (List (String × String)) :=
  let all_repos := personal.getD [] ++ org.getD []
  if all_repos = [] then .error "Failed to load repos. Is gh authenticated?"
  else .ok (buildRepoCache all_repos)

/-! ## RepoPickerScreen -/

/-- State of the repository-picker modal.  `repos` is the full candidate
list handed to `__init__`; `filtered_repos` is the visible subset backing
the option list; `selected_url` is the tracked highlight; `dismissed` as
in `DirPickerState`, with result `none` = cancelled, `some ""` = explicit
clear, `some url` = chosen. -/
structure RepoPickerState where
  repos : List (String × String)
  filtered_repos : List (String × String)
  selected_url : Option String
  dismissed : Option (Option String)
  deriving DecidableEq

/-- `RepoPickerScreen.__init__`: the visible list starts as a copy of the
full candidate list, nothing tracked yet. -/
def initRepoPicker (repos : List (String × String)) : RepoPickerState :=
  { repos := repos
    filtered_repos := repos
    selected_url := none
    dismissed := none }

namespace RepoPicker

/-- `on_search_changed`: lowercase the query and rebuild the visible list
from the full candidate list, keeping the names that contain it. -/
def on_search_changed (st : RepoPickerState) (value : String) : RepoPickerState :=
  let search_term := strLower value
  { st with
      filtered_repos :=
        st.repos.filter (fun nu => strIn search_term (strLower nu.1)) }

/-- `on_option_selected` / `on_option_highlighted`: track the option's id
(`str(event.option.id) if event.option.id else None` — a missing or empty
id tracks `None`). -/
def trackOption (st : RepoPickerState) (oid : Option String) : RepoPickerState :=
  { st with
      selected_url :=
        match oid with
        | none => none
        | some s => if s = "" then none else some s }

/-- `on_select`: dismiss with the tracked identifier, whatever it is. -/
def on_select (st : RepoPickerState) : RepoPickerState :=
  { st with dismissed := some st.selected_url }

/-- `on_clear`: dismiss with the empty string, unconditionally. -/
def on_clear (st : RepoPickerState) : RepoPickerState :=
  { st with dismissed := some (some "") }

/-- `action_cancel` (Cancel button and the `escape` binding): dismiss with
no result. -/
def action_cancel (st : RepoPickerState) : RepoPickerState :=
  { st with dismissed := some none }

end RepoPicker

/-- The events the repository-picker screen reacts to. -/
inductive RepoEvent where
  | search (q : String)
  | highlight (oid : Option String)
  | activate (oid : Option String)
  | pressSelect
  | pressClear
  | pressCancel
  deriving DecidableEq

/-- One event step of the repository-picker modal. -/
def repoStep (st : RepoPickerState) (e : RepoEvent) : RepoPickerState :=
  match e with
  | .search q => RepoPicker.on_search_changed st q
  | .highlight oid => RepoPicker.trackOption st oid
  | .activate oid => RepoPicker.trackOption st oid
  | .pressSelect => RepoPicker.on_select st
  | .pressClear => RepoPicker.on_clear st
  | .pressCancel => RepoPicker.action_cancel st

/-- Run a sequence of repository-picker events. -/
def repoRun (st : RepoPickerState) (es : List RepoEvent) : RepoPickerState :=
  es.foldl repoStep st

/-! ## SimpleDevEnvApp: form state and modal continuations -/

/-- The main form's mutable state: the chosen target directory and its
readout, the candidate cache, the chosen repository identifier and its
readout, the output log and the status bar. -/
structure AppState where
  script_dir : FsPath
  target_dir : FsPath
  target_dir_display : String
  github_repos : List (String × String)
  selected_repo : String
  repo_display : String
  log : List String
  status : String
  deriving DecidableEq

/-- `SimpleDevEnvApp.__init__` plus initial compose, with `Path.home()`
abstracted as `home` and the script's own location as `script_dir`:
target directory `home/odoo_projects`, empty cache, no repo chosen,
readouts at their initial texts. -/
def initApp (script_dir home : FsPath) : AppState :=
  { script_dir := script_dir
    target_dir := home ++ ["odoo_projects"]
    target_dir_display := pathStr (home ++ ["odoo_projects"])
    github_repos := []
    selected_repo := ""
    repo_display := "(none)"
    log := []
    status := "Ready" }

/-- `update_status`: the markup written to the `#status-bar` Static. -/
def update_status (message : String) (error success : Bool) : String :=
  if error then "[bold red]" ++ message ++ "[/]"
  else if success then "[bold green]" ++ message ++ "[/]"
  else "[bold]" ++ message ++ "[/]"

/-- `on_directory_picked`: the directory-picker continuation.  A `none`
result (cancelled) leaves the form untouched; a path becomes the new
target directory and readout. -/
def on_directory_picked (st : AppState) (path : Option FsPath) : AppState :=
  match path with
  | none => st
  | some p =>
    { st with target_dir := p, target_dir_display := pathStr p }

/-- `on_repo_picked`: the repository-picker continuation.  `none`
(cancelled) returns immediately; otherwise the identifier is stored, and
the readout shows the matching display name (falling back to the
identifier itself), or `"(none)"` for the empty identifier. -/
def on_repo_picked (st : AppState) (url : Option String) : AppState :=
  match url with
  | none => st
  | some u =>
    let st := { st with selected_repo := u }
    if u ≠ "" then
      let name := ((st.github_repos.find? (fun nu => nu.2 = u)).map Prod.fst).getD u
      { st with repo_display := name }
    else
      { st with repo_display := "(none)" }

/-! ## Execution handoff (`run_setup`) -/

/-- Python dict assignment `env[k] = v` on an association list: replace an
existing binding in place, else append. -/
def envSet (env : List (String × String)) (k v : String) : List (String × String) :=
  if env.any (fun kv => kv.1 = k) then
    env.map (fun kv => if kv.1 = k then (k, v) else kv)
  else env ++ [(k, v)]

/-- The observable outcome of one `run_setup` call: whether the script was
spawned, the environment it was spawned with, how often the TUI was
suspended and resumed, and the captured exit status (`none` when no
process ran). -/
structure SetupOutcome where
  ran : Bool
  args : List String
  cwd : FsPath
  env : List (String × String)
  suspends : Nat
  resumes : Nat
  captured : Option Int
  deriving DecidableEq

/-- `run_setup`, with the externals as parameters: `script_exists` is the
`script_path.exists()` check, `base_env` is `os.environ.copy()`, and `rc`
is the exit status the provisioning subprocess would return.  A missing
script is a pre-flight failure: status set, nothing spawned.  Otherwise
the environment is assembled (`BASE_PATH` always; `DB_NAME`,
`INSTALL_PRECOMMIT`, `CLONE_REPO` only when truthy), the TUI is suspended,
the script runs to completion, the operator acknowledges, the TUI resumes,
and the log and status are rewritten from the exit status. -/
def run_setup (st : AppState) (script_exists : Bool) (base_env : List (String × String))
    (project_name odoo_version db_name : String) (install_precommit : Bool)
    (clone_repo : String) (rc : Int) : AppState × SetupOutcome :=
  let script_path := st.script_dir ++ ["create.sh"]
  if !script_exists then
    ({ st with status := update_status "Setup script not found!" true false },
     { ran := false, args := [], cwd := st.script_dir, env := base_env,
       suspends := 0, resumes := 0, captured := none })
  else
    let env := envSet base_env "BASE_PATH" (pathStr st.target_dir)
    let env := if db_name ≠ "" then envSet env "DB_NAME" db_name else env
    let env := if install_precommit then envSet env "INSTALL_PRECOMMIT" "1" else env
    let env := if clone_repo ≠ "" then envSet env "CLONE_REPO" clone_repo else env
    let st :=
      if rc = 0 then
        { st with
            log := ["Setup completed for " ++ project_name]
            status := update_status "Environment created successfully!" false true }
      else
        { st with
            log := ["Setup failed with exit code " ++ toString rc]
            status := update_status ("Setup failed (exit code " ++ toString rc ++ ")") true false }
    (st, { ran := true
           args := ["bash", pathStr script_path, project_name, odoo_version]
           cwd := st.script_dir
           env := env
           suspends := 1
           resumes := 1
           captured := some rc })


/-! # Helper lemmas -/

/-- `leadMatch` is true exactly when the needle heads the haystack. -/
theorem leadMatch_iff (n : List Char) :
    ∀ h, leadMatch n h = true ↔ ∃ r, h = n ++ r := by
  induction n with
  | nil => intro h; simp [leadMatch]
  | cons c cs ih =>
    intro h
    cases h with
    | nil => simp [leadMatch]
    | cons d ds =>
      simp only [leadMatch, Bool.and_eq_true, decide_eq_true_eq, ih, List.cons_append]
      constructor
      · rintro ⟨rfl, r, rfl⟩; exact ⟨r, rfl⟩
      · rintro ⟨r, hr⟩
        injection hr with h1 h2
        exact ⟨h1.symm, r, h2⟩

/-- `occursIn` is true exactly when the needle occurs contiguously. -/
theorem occursIn_iff (n : List Char) :
    ∀ h, occursIn n h = true ↔ ∃ l r, h = l ++ n ++ r := by
  intro h
  induction h with
  | nil =>
    simp only [occursIn, leadMatch_iff]
    constructor
    · rintro ⟨r, hr⟩; exact ⟨[], r, by simpa using hr⟩
    · rintro ⟨l, r, hr⟩
      have h0 : l ++ n ++ r = [] := hr.symm
      simp only [List.append_eq_nil] at h0
      exact ⟨r, by simp [h0.1.2, h0.2]⟩
  | cons c t ih =>
    simp only [occursIn, Bool.or_eq_true, leadMatch_iff, ih]
    constructor
    · rintro (⟨r, hr⟩ | ⟨l, r, hr⟩)
      · exact ⟨[], r, by simpa using hr⟩
      · exact ⟨c :: l, r, by simp [hr]⟩
    · rintro ⟨l, r, hr⟩
      cases l with
      | nil => exact Or.inl ⟨r, by simpa using hr⟩
      | cons x xs =>
        rw [List.cons_append, List.cons_append] at hr
        injection hr with h1 h2
        exact Or.inr ⟨xs, r, h2⟩

/-- Every repository-picker event leaves the full candidate list alone. -/
theorem repoStep_repos (st : RepoPickerState) (e : RepoEvent) :
    (repoStep st e).repos = st.repos := by
  cases e <;> rfl

/-- Event sequences leave the full candidate list alone. -/
theorem repoRun_repos (st : RepoPickerState) (es : List RepoEvent) :
    (repoRun st es).repos = st.repos := by
  induction es generalizing st with
  | nil => rfl
  | cons e es ih =>
    show (repoRun (repoStep st e) es).repos = st.repos
    rw [ih, repoStep_repos]

/-! # Claims -/

/-- C9 (confirmed): the path filter returns exactly the subsequence of the
entries whose names do not start with the hidden marker: it is a sublist
(order preserved), membership is exactly non-hiddenness within the input,
non-hidden entries keep their multiplicity (nothing else is removed, and
nothing is added), and every hidden entry is excluded. -/
theorem path_filter_subsequence (ps : List FsPath) :
    List.Sublist (filter_paths ps) ps
      ∧ (∀ p, p ∈ filter_paths ps ↔ p ∈ ps ∧ isHidden p = false)
      ∧ (∀ p, isHidden p = false → (filter_paths ps).count p = ps.count p)
      ∧ (∀ p, isHidden p = true → p ∉ filter_paths ps) := by
  refine ⟨List.filter_sublist ps, fun p => ?_, fun p hp => ?_, fun p hp hmem => ?_⟩
  · simp [filter_paths]
  · simp [filter_paths, List.count_filter, hp]
  · simp [filter_paths, hp] at hmem

/-- Witness for C9 at a concrete entry list. -/
theorem path_filter_subsequence_witness :
    (filter_paths [["home"], [".git"]]).count ["home"]
        = ([["home"], [".git"]] : List FsPath).count ["home"]
      ∧ [".git"] ∉ filter_paths [["home"], [".git"]] := by
  obtain ⟨-, -, h3, h4⟩ := path_filter_subsequence [["home"], [".git"]]
  exact ⟨h3 ["home"] (by decide), h4 [".git"] (by decide)⟩

/-- C10 (confirmed): a directory picker dismissed with no result (Cancel /
escape dismisses with `none`) leaves the whole form state — in particular
the target directory and its readout — exactly as it was; only a non-null
result changes them. -/
theorem directory_picked_null_frame (st : AppState) (stp : DirPickerState) (p : FsPath) :
    on_directory_picked st none = st
      ∧ (DirPicker.action_cancel stp).dismissed = some none
      ∧ (on_directory_picked st (some p)).target_dir = p
      ∧ (on_directory_picked st (some p)).target_dir_display = pathStr p :=
  ⟨rfl, rfl, rfl, rfl⟩

/-- C8 (confirmed): whatever is tracked, "Clear" dismisses with the empty
string and "Cancel" dismisses with no result, and the three outcomes —
null, empty string, non-empty identifier — are pairwise distinct. -/
theorem repo_picker_clear_cancel_distinct (st : RepoPickerState) (u : String) (hu : u ≠ "") :
    (RepoPicker.on_clear st).dismissed = some (some "")
      ∧ (RepoPicker.action_cancel st).dismissed = some none
      ∧ (none : Option String) ≠ some ""
      ∧ (none : Option String) ≠ some u
      ∧ (some "" : Option String) ≠ some u := by
  refine ⟨rfl, rfl, by simp, by simp, ?_⟩
  exact fun h => hu (Option.some.inj h).symm

/-- Witness for C8 at a concrete picker state and identifier. -/
theorem repo_picker_clear_cancel_distinct_witness :
    (RepoPicker.on_clear (initRepoPicker [("x", "u1")])).dismissed = some (some "")
      ∧ (RepoPicker.action_cancel (initRepoPicker [("x", "u1")])).dismissed = some none
      ∧ (some "" : Option String) ≠ some "u1" := by
  obtain ⟨h1, h2, -, -, h5⟩ :=
    repo_picker_clear_cancel_distinct (initRepoPicker [("x", "u1")]) "u1" (by decide)
  exact ⟨h1, h2, h5⟩

/-- C1 (corrected): on the claimed input the candidate cache keeps three
entries, not two — `sorted(set(all_repos), ...)` deduplicates by the exact
(display name, identifier) pair, so two entries with different names may
share an identifier. -/
theorem cache_identifier_dedup_counterexample :
    buildRepoCache [("x", "u1"), ("y", "u1"), ("z", "u2")]
        = [("x", "u1"), ("y", "u1"), ("z", "u2")]
      ∧ (buildRepoCache [("x", "u1"), ("y", "u1"), ("z", "u2")]).length ≠ 2 := by
  refine ⟨by decide, by decide⟩

/-- C1 (amended): the candidate cache deduplicates by the exact
(display name, identifier) pair: for every merged input no two cache
entries are identical pairs, the cache is sorted case-insensitively by
display name, and it holds exactly the distinct pairs of the input; the
claimed input therefore yields three entries (two sharing identifier u1),
in case-insensitive display-name order. -/
theorem cache_pair_dedup_sorted (l : List (String × String)) :
    (buildRepoCache l).Nodup
      ∧ List.Sorted repoLe (buildRepoCache l)
      ∧ (∀ nu, nu ∈ buildRepoCache l ↔ nu ∈ l)
      ∧ buildRepoCache [("x", "u1"), ("y", "u1"), ("z", "u2")]
          = [("x", "u1"), ("y", "u1"), ("z", "u2")] := by
  have hperm : (List.insertionSort repoLe l.dedup).Perm l.dedup :=
    List.perm_insertionSort repoLe l.dedup
  refine ⟨hperm.symm.nodup (List.nodup_dedup l), List.sorted_insertionSort repoLe l.dedup,
    fun nu => ?_, by decide⟩
  rw [buildRepoCache, hperm.mem_iff, List.mem_dedup]

/-- C2 (corrected): receiving null from the picker is not the same as
receiving the empty string — with repository u1 already chosen, null
leaves it chosen while the empty string clears it. -/
theorem repo_picked_null_counterexample :
    on_repo_picked
        { script_dir := ["app"], target_dir := ["home"], target_dir_display := "/home",
          github_repos := [], selected_repo := "u1", repo_display := "x",
          log := [], status := "Ready" } none
      ≠ on_repo_picked
        { script_dir := ["app"], target_dir := ["home"], target_dir_display := "/home",
          github_repos := [], selected_repo := "u1", repo_display := "x",
          log := [], status := "Ready" } (some "") := by
  decide

/-- C2 (amended): "Select" with nothing ever highlighted dismisses with the
tracked identifier, which is null, and the caller treats a null result the
same as a cancelled picker — the form state is unchanged for every prior
state; only the empty-string result clears the selected repository and
shows the "(none)" readout. -/
theorem repo_picked_null_cancels (repos : List (String × String)) (st : AppState) :
    (RepoPicker.on_select (initRepoPicker repos)).dismissed = some none
      ∧ on_repo_picked st none = st
      ∧ (on_repo_picked st (some "")).selected_repo = ""
      ∧ (on_repo_picked st (some "")).repo_display = "(none)" :=
  ⟨rfl, rfl, rfl, rfl⟩

/-- C3 (confirmed): when the script exists, the execution handoff runs the
process, captures its exit status verbatim, suspends and resumes the
interactive UI exactly once, and surfaces a nonzero exit code verbatim in
the status message. -/
theorem run_setup_captures_exit_status (st : AppState) (base_env : List (String × String))
    (pn ov dbn : String) (pre : Bool) (cr : String) (rc : Int) :
    (run_setup st true base_env pn ov dbn pre cr rc).2.captured = some rc
      ∧ (run_setup st true base_env pn ov dbn pre cr rc).2.suspends = 1
      ∧ (run_setup st true base_env pn ov dbn pre cr rc).2.resumes = 1
      ∧ (run_setup st true base_env pn ov dbn pre cr rc).2.ran = true
      ∧ (rc ≠ 0 →
          (run_setup st true base_env pn ov dbn pre cr rc).1.status
            = update_status ("Setup failed (exit code " ++ toString rc ++ ")") true false) := by
  refine ⟨rfl, rfl, rfl, rfl, fun h => ?_⟩
  simp [run_setup, h]

/-- Witness for C3 at exit code 3. -/
theorem run_setup_captures_exit_status_witness :
    (run_setup (initApp ["app"] ["home"]) true [] "proj" "18.0" "" false "" 3).2.captured = some 3
      ∧ (run_setup (initApp ["app"] ["home"]) true [] "proj" "18.0" "" false "" 3).2.resumes = 1
      ∧ (run_setup (initApp ["app"] ["home"]) true [] "proj" "18.0" "" false "" 3).1.status
          = "[bold red]Setup failed (exit code 3)[/]" := by
  obtain ⟨h1, -, h3, -, h5⟩ :=
    run_setup_captures_exit_status (initApp ["app"] ["home"]) [] "proj" "18.0" "" false "" 3
  refine ⟨h1, h3, ?_⟩
  rw [h5 (by decide)]
  decide

/-- Tree-selection events track the last selected path and never touch the
start path. -/
theorem dirRun_dirSelected (st : DirPickerState) (fs : Fs) (ps : List FsPath) :
    (dirRun (st, fs) (ps.map DirEvent.dirSelected)).1.selected_path
        = (ps.getLast?).or st.selected_path
      ∧ (dirRun (st, fs) (ps.map DirEvent.dirSelected)).1.start_path = st.start_path := by
  induction ps using List.reverseRecOn with
  | nil => exact ⟨rfl, rfl⟩
  | append_singleton qs p ih =>
    have hfold :
        dirRun (st, fs) ((qs ++ [p]).map DirEvent.dirSelected)
          = dirStep (dirRun (st, fs) (qs.map DirEvent.dirSelected)) (DirEvent.dirSelected p) := by
      rw [List.map_append, List.map_singleton, dirRun, List.foldl_append]
      rfl
    constructor
    · rw [hfold]
      simp [dirStep, DirPicker.on_directory_selected, List.getLast?_concat]
    · rw [hfold]
      simpa [dirStep, DirPicker.on_directory_selected] using ih.2

/-- C4 (confirmed): for every start path and sequence of tree-selection
events, "Select" dismisses with the start path when nothing was ever
selected, with the last selected path P otherwise (never with null), and
"Cancel" / escape dismisses with null, a result distinct from every
"Select" result. -/
theorem dir_picker_select_result (start : FsPath) (fs : Fs) (ps : List FsPath) :
    (ps = [] →
        (DirPicker.on_select
            (dirRun (initDirPicker start, fs) (ps.map DirEvent.dirSelected)).1).dismissed
          = some (some start))
      ∧ (∀ P, ps.getLast? = some P →
          (DirPicker.on_select
              (dirRun (initDirPicker start, fs) (ps.map DirEvent.dirSelected)).1).dismissed
            = some (some P))
      ∧ (∃ r, (DirPicker.on_select
              (dirRun (initDirPicker start, fs) (ps.map DirEvent.dirSelected)).1).dismissed
            = some (some r))
      ∧ (DirPicker.action_cancel
            (dirRun (initDirPicker start, fs) (ps.map DirEvent.dirSelected)).1).dismissed
          = some none
      ∧ (DirPicker.on_select
            (dirRun (initDirPicker start, fs) (ps.map DirEvent.dirSelected)).1).dismissed
          ≠ (DirPicker.action_cancel
              (dirRun (initDirPicker start, fs) (ps.map DirEvent.dirSelected)).1).dismissed := by
  obtain ⟨hsel, hstart⟩ := dirRun_dirSelected (initDirPicker start) fs ps
  simp only [show (initDirPicker start).selected_path = none from rfl,
    show (initDirPicker start).start_path = start from rfl, Option.or_none] at hsel hstart
  refine ⟨?_, ?_, ⟨(ps.getLast?).getD start, ?_⟩, rfl, ?_⟩
  · intro h; subst h
    simp only [List.map_nil] at hsel hstart
    simp [DirPicker.on_select, hsel, hstart]
  · intro P hP
    simp [DirPicker.on_select, hsel, hstart, hP]
  · simp [DirPicker.on_select, hsel, hstart]
  · simp [DirPicker.on_select, DirPicker.action_cancel]

/-- Witness for C4: selecting `/root/a` then "Select" returns `/root/a`;
"Select" with no selection returns the start path `/root`. -/
theorem dir_picker_select_result_witness :
    (DirPicker.on_select
        (dirRun (initDirPicker ["root"], Fs.mk [] [])
          ([["root", "a"]].map DirEvent.dirSelected)).1).dismissed
      = some (some ["root", "a"])
    ∧ (DirPicker.on_select
        (dirRun (initDirPicker ["root"], Fs.mk [] [])
          (([] : List FsPath).map DirEvent.dirSelected)).1).dismissed
      = some (some ["root"]) := by
  obtain ⟨-, h2, -, -, -⟩ := dir_picker_select_result ["root"] (Fs.mk [] []) [["root", "a"]]
  obtain ⟨h1, -, -, -, -⟩ := dir_picker_select_result ["root"] (Fs.mk [] []) ([] : List FsPath)
  exact ⟨h2 ["root", "a"] rfl, h1 rfl⟩

/-- C7 (confirmed): after any event histories ending in the same query, the
visible subset is the same, and always equals the subsequence of the full
candidate list whose lowercased display names contain the lowercased query
as a contiguous substring, in cache order. -/
theorem repo_filter_pure_of_query (repos : List (String × String))
    (es es' : List RepoEvent) (q : String) :
    (repoRun (initRepoPicker repos) (es ++ [RepoEvent.search q])).filtered_repos
        = (repoRun (initRepoPicker repos) (es' ++ [RepoEvent.search q])).filtered_repos
      ∧ (repoRun (initRepoPicker repos) (es ++ [RepoEvent.search q])).filtered_repos
          = repos.filter (fun nu => strIn (strLower q) (strLower nu.1))
      ∧ List.Sublist
          (repoRun (initRepoPicker repos) (es ++ [RepoEvent.search q])).filtered_repos
          repos
      ∧ (∀ nu, nu ∈ (repoRun (initRepoPicker repos) (es ++ [RepoEvent.search q])).filtered_repos
          ↔ nu ∈ repos ∧ ∃ l r, (strLower nu.1).data = l ++ (strLower q).data ++ r) := by
  have key : ∀ ev : List RepoEvent,
      (repoRun (initRepoPicker repos) (ev ++ [RepoEvent.search q])).filtered_repos
        = repos.filter (fun nu => strIn (strLower q) (strLower nu.1)) := by
    intro ev
    have hrepos : (List.foldl repoStep (initRepoPicker repos) ev).repos = repos :=
      (repoRun_repos (initRepoPicker repos) ev).trans rfl
    rw [repoRun, List.foldl_append, List.foldl_cons, List.foldl_nil]
    simp [repoStep, RepoPicker.on_search_changed, hrepos]
  refine ⟨(key es).trans (key es').symm, key es, ?_, fun nu => ?_⟩
  · rw [key es]
    exact List.filter_sublist repos
  · rw [key es]
    simp only [List.mem_filter, strIn, occursIn_iff]

/-- With nothing denied, creating a list of paths succeeds, keeps the
denial list empty, keeps every existing directory, and makes every listed
path exist. -/
theorem mkdirList_denied_nil (l : List FsPath) :
    ∀ fs : Fs, fs.denied = [] →
      ∃ fs' : Fs, mkdirList fs l = .ok fs' ∧ fs'.denied = []
        ∧ (∀ q, q ∈ fs.dirs → q ∈ fs'.dirs) ∧ (∀ q, q ∈ l → q ∈ fs'.dirs) := by
  induction l with
  | nil =>
    intro fs hd
    exact ⟨fs, rfl, hd, fun q hq => hq, by simp⟩
  | cons a l ih =>
    intro fs hd
    by_cases ha : a ∈ fs.dirs
    · obtain ⟨fs', h1, h2, h3, h4⟩ := ih fs hd
      refine ⟨fs', ?_, h2, h3, fun q hq => ?_⟩
      · simp only [mkdirList, mkdirOne, if_pos ha]
        exact h1
      · rcases List.mem_cons.mp hq with rfl | hq
        · exact h3 _ ha
        · exact h4 _ hq
    · have ha2 : a ∉ fs.denied := by rw [hd]; simp
      obtain ⟨fs', h1, h2, h3, h4⟩ := ih { fs with dirs := a :: fs.dirs } hd
      refine ⟨fs', ?_, h2, fun q hq => h3 _ (by simp [hq]), fun q hq => ?_⟩
      · simp only [mkdirList, mkdirOne, if_neg ha, if_neg ha2]
        exact h1
      · rcases List.mem_cons.mp hq with rfl | hq
        · exact h3 _ (by simp)
        · exact h4 _ hq

/-- Creating paths that all already exist changes nothing (idempotence of
`mkdir(parents=True, exist_ok=True)`). -/
theorem mkdirList_idem (l : List FsPath) :
    ∀ fs : Fs, (∀ q, q ∈ l → q ∈ fs.dirs) → mkdirList fs l = .ok fs := by
  induction l with
  | nil => intro fs _; rfl
  | cons a l ih =>
    intro fs h
    have ha : a ∈ fs.dirs := h a (by simp)
    simp only [mkdirList, mkdirOne, if_pos ha]
    exact ih fs (fun q hq => h q (by simp [hq]))

/-- With nothing denied, confirming a nonempty (stripped) folder name
succeeds: the new path becomes the selection, the readout reports it, the
input clears, the dismissal state and start path are untouched, and
afterwards the denial list is still empty and the new path together with
all its ancestors exists. -/
theorem create_folder_ok (st : DirPickerState) (fs : Fs)
    (hd : fs.denied = []) (hne : strTrim st.input_val ≠ "") :
    (DirPicker.on_create_folder st fs).1.selected_path
        = some ((st.selected_path.getD st.start_path) ++ [strTrim st.input_val])
      ∧ (DirPicker.on_create_folder st fs).1.start_path = st.start_path
      ∧ (DirPicker.on_create_folder st fs).1.input_val = ""
      ∧ (DirPicker.on_create_folder st fs).1.display
          = "Created & Selected: "
            ++ pathStr ((st.selected_path.getD st.start_path) ++ [strTrim st.input_val])
      ∧ (DirPicker.on_create_folder st fs).1.dismissed = st.dismissed
      ∧ (DirPicker.on_create_folder st fs).2.denied = []
      ∧ (∀ q, q ∈ (((st.selected_path.getD st.start_path)
              ++ [strTrim st.input_val]).inits.drop 1)
          → q ∈ (DirPicker.on_create_folder st fs).2.dirs) := by
  obtain ⟨fs', h1, h2, h3, h4⟩ :=
    mkdirList_denied_nil
      (((st.selected_path.getD st.start_path) ++ [strTrim st.input_val]).inits.drop 1) fs hd
  have heq : DirPicker.on_create_folder st fs
      = ({ st with
            selected_path :=
              some ((st.selected_path.getD st.start_path) ++ [strTrim st.input_val])
            display := "Created & Selected: "
              ++ pathStr ((st.selected_path.getD st.start_path) ++ [strTrim st.input_val])
            input_val := "" }, fs') := by
    simp only [DirPicker.on_create_folder, mkdirParents, if_neg hne, h1]
  rw [heq]
  exact ⟨rfl, rfl, rfl, rfl, rfl, h2, h4⟩

/-- C5 (corrected): starting from selection `/root/a`, creating "sub" and
then confirming the same name again does not leave the selection at
`/root/a/sub` — the second creation is relative to the moved selection and
selects the nested `/root/a/sub/sub`. -/
theorem create_folder_second_create_counterexample :
    (DirPicker.on_create_folder
        (DirPicker.setInput
          (DirPicker.on_create_folder
            (DirPicker.setInput
              (DirPicker.on_directory_selected (initDirPicker ["root"]) ["root", "a"]) "sub")
            (Fs.mk [["root"], ["root", "a"]] [])).1 "sub")
        (DirPicker.on_create_folder
          (DirPicker.setInput
            (DirPicker.on_directory_selected (initDirPicker ["root"]) ["root", "a"]) "sub")
          (Fs.mk [["root"], ["root", "a"]] [])).2).1.selected_path
      ≠ some ["root", "a", "sub"]
    ∧ (DirPicker.on_create_folder
        (DirPicker.setInput
          (DirPicker.on_directory_selected (initDirPicker ["root"]) ["root", "a"]) "sub")
        (Fs.mk [["root"], ["root", "a"]] [])).1.selected_path
      = some ["root", "a", "sub"]
    ∧ (DirPicker.on_create_folder
        (DirPicker.setInput
          (DirPicker.on_create_folder
            (DirPicker.setInput
              (DirPicker.on_directory_selected (initDirPicker ["root"]) ["root", "a"]) "sub")
            (Fs.mk [["root"], ["root", "a"]] [])).1 "sub")
        (DirPicker.on_create_folder
          (DirPicker.setInput
            (DirPicker.on_directory_selected (initDirPicker ["root"]) ["root", "a"]) "sub")
          (Fs.mk [["root"], ["root", "a"]] [])).2).1.selected_path
      = some ["root", "a", "sub", "sub"] := by
  exact ⟨by decide, by decide, by decide⟩

/-- C5 (amended): with creation permitted, confirming folder name n with
selection p creates p/n (with its missing ancestors), selects it, shows it,
clears the input and dismisses nothing; confirming the same name a second
time does not error but selects the nested p/n/n, because creation is
relative to the moved selection; creating p/n again under the original
parent is a no-op (`exist_ok` idempotence), and re-selecting p before the
second confirmation leaves the selection at p/n as the claim intended. -/
theorem create_folder_moves_selection (st : DirPickerState) (fs : Fs) (p : FsPath) (n : String)
    (hd : fs.denied = []) (hsel : st.selected_path = some p)
    (hin : strTrim st.input_val = n) (hne : n ≠ "") :
    (DirPicker.on_create_folder st fs).1.selected_path = some (p ++ [n])
      ∧ (DirPicker.on_create_folder st fs).1.input_val = ""
      ∧ (DirPicker.on_create_folder st fs).1.display
          = "Created & Selected: " ++ pathStr (p ++ [n])
      ∧ (DirPicker.on_create_folder st fs).1.dismissed = st.dismissed
      ∧ (DirPicker.on_create_folder
            (DirPicker.setInput (DirPicker.on_create_folder st fs).1 st.input_val)
            (DirPicker.on_create_folder st fs).2).1.selected_path
          = some (p ++ [n] ++ [n])
      ∧ mkdirParents (DirPicker.on_create_folder st fs).2 (p ++ [n])
          = .ok (DirPicker.on_create_folder st fs).2
      ∧ (DirPicker.on_create_folder
            (DirPicker.setInput
              (DirPicker.on_directory_selected (DirPicker.on_create_folder st fs).1 p)
              st.input_val)
            (DirPicker.on_create_folder st fs).2).1.selected_path
          = some (p ++ [n]) := by
  subst hin
  obtain ⟨a1, a2, a3, a4, a5, a6, a7⟩ := create_folder_ok st fs hd hne
  rw [hsel] at a1 a4 a7
  simp only [Option.getD_some] at a1 a4 a7
  refine ⟨a1, a3, a4, a5, ?_, ?_, ?_⟩
  · obtain ⟨b1, -⟩ :=
      create_folder_ok
        (DirPicker.setInput (DirPicker.on_create_folder st fs).1 st.input_val)
        (DirPicker.on_create_folder st fs).2 a6 hne
    rw [b1]
    simp only [DirPicker.setInput]
    rw [a1]
    simp
  · exact mkdirList_idem _ _ a7
  · obtain ⟨c1, -⟩ :=
      create_folder_ok
        (DirPicker.setInput
          (DirPicker.on_directory_selected (DirPicker.on_create_folder st fs).1 p)
          st.input_val)
        (DirPicker.on_create_folder st fs).2 a6 hne
    rw [c1]
    simp [DirPicker.setInput, DirPicker.on_directory_selected]

/-- Witness for C5 at `/root/a` and folder name "sub". -/
theorem create_folder_moves_selection_witness :
    (DirPicker.on_create_folder
        (DirPicker.setInput
          (DirPicker.on_directory_selected (initDirPicker ["root"]) ["root", "a"]) "sub")
        (Fs.mk [["root"], ["root", "a"]] [])).1.selected_path
      = some (["root", "a"] ++ ["sub"])
    ∧ (DirPicker.on_create_folder
        (DirPicker.setInput
          (DirPicker.on_create_folder
            (DirPicker.setInput
              (DirPicker.on_directory_selected (initDirPicker ["root"]) ["root", "a"]) "sub")
            (Fs.mk [["root"], ["root", "a"]] [])).1
          (DirPicker.setInput
            (DirPicker.on_directory_selected (initDirPicker ["root"]) ["root", "a"])
            "sub").input_val)
        (DirPicker.on_create_folder
          (DirPicker.setInput
            (DirPicker.on_directory_selected (initDirPicker ["root"]) ["root", "a"]) "sub")
          (Fs.mk [["root"], ["root", "a"]] [])).2).1.selected_path
      = some (["root", "a"] ++ ["sub"] ++ ["sub"]) := by
  obtain ⟨w1, -, -, -, w5, -, -⟩ :=
    create_folder_moves_selection
      (DirPicker.setInput
        (DirPicker.on_directory_selected (initDirPicker ["root"]) ["root", "a"]) "sub")
      (Fs.mk [["root"], ["root", "a"]] []) ["root", "a"] "sub"
      rfl rfl (by decide) (by decide)
  exact ⟨w1, w5⟩

/-- C6 (confirmed): when folder creation fails with a filesystem error, the
error is caught and surfaced as an inline message, the picker is not
dismissed, and the selection (and start path) are exactly what they were
before the attempt. -/
theorem create_folder_failure_atomic (st : DirPickerState) (fs : Fs) (e : String) (fs2 : Fs)
    (hne : strTrim st.input_val ≠ "")
    (hfail : mkdirParents fs ((st.selected_path.getD st.start_path) ++ [strTrim st.input_val])
        = .error (e, fs2)) :
    (DirPicker.on_create_folder st fs).1.selected_path = st.selected_path
      ∧ (DirPicker.on_create_folder st fs).1.dismissed = st.dismissed
      ∧ (DirPicker.on_create_folder st fs).1.start_path = st.start_path
      ∧ (DirPicker.on_create_folder st fs).1.display = "Error: " ++ e
      ∧ (DirPicker.on_create_folder st fs).2 = fs2 := by
  have heq : DirPicker.on_create_folder st fs = ({ st with display := "Error: " ++ e }, fs2) := by
    simp only [DirPicker.on_create_folder, if_neg hne, hfail]
  rw [heq]
  exact ⟨rfl, rfl, rfl, rfl, rfl⟩

/-- Witness for C6: creating "sub" under `/root` with `/root/sub` denied
fails inline and leaves the (empty) selection and open picker untouched. -/
theorem create_folder_failure_atomic_witness :
    (DirPicker.on_create_folder (DirPicker.setInput (initDirPicker ["root"]) "sub")
        (Fs.mk [["root"]] [["root", "sub"]])).1.selected_path = none
      ∧ (DirPicker.on_create_folder (DirPicker.setInput (initDirPicker ["root"]) "sub")
          (Fs.mk [["root"]] [["root", "sub"]])).1.dismissed = none
      ∧ (DirPicker.on_create_folder (DirPicker.setInput (initDirPicker ["root"]) "sub")
          (Fs.mk [["root"]] [["root", "sub"]])).1.display
        = "Error: " ++ "Permission denied: /root/sub" := by
  obtain ⟨w1, w2, -, w4, -⟩ :=
    create_folder_failure_atomic (DirPicker.setInput (initDirPicker ["root"]) "sub")
      (Fs.mk [["root"]] [["root", "sub"]]) "Permission denied: /root/sub"
      (Fs.mk [["root"]] [["root", "sub"]]) (by decide) rfl
  exact ⟨w1, w2, w4⟩

end SimpleDevEnv
